import Mathlib

/-!
Verification of the DDPG agent training logic in
tf_agents/agents/ddpg/ddpg_agent.py (class DdpgAgent).

Modelling conventions for the shallow embedding:

* Machine floats are modelled by the rationals.
* A tensor of shape [B] is a `List ℚ` over the batch; a nest of action
  tensors is modelled by its flattened list of leaves (one `List ℚ` per
  leaf), so `nest.flatten` in actor_loss is the identity on this
  representation.
* The four networks are the two architecture functions (actor, critic)
  applied to one of the two parameter collections (online or target),
  matching the twin `tf.make_template` instantiations of lines 97-105.
* Parameter collections (`global_variables` of each template) are flat
  lists of rationals paired positionally, as `soft_variables_update` pairs
  them.
* Gradient flow is modelled with dual numbers (`DualQ`), where
  `tf.stop_gradient` zeroes the derivative component; the purely
  value-level reading of `tf.stop_gradient` is `stopGradient`, the
  identity.
* The optimizers and the reverse-mode engine are external collaborators
  (spec section 1): an optimizer step is an opaque function of the
  trainable parameters and the loss it minimizes, and the engine's
  `tf.gradients([q_values], actions)` is the oracle field `criticNetDqda`.
  Summary emission (`tf.contrib.summary`) is value-free and omitted.
* `common_utils.soft_variables_update`, `common_utils.periodically` and
  `trajectory.to_transition` are code of this repository that is not under
  src/; they are modelled from the spec, marked in their doc comments.
-/

/-- One environment step record: step_type, reward, discount, observation
(spec section 3, TimeStep). -/
structure TimeStep where
  stepType : ℤ
  reward : ℚ
  discount : ℚ
  observation : List ℚ
deriving DecidableEq

/-- Result of a computation that may fail with the InvalidInputError of
spec section 7. -/
inductive TfResult (α : Type) where
  | ok (value : α) : TfResult α
  | invalidInputError (msg : String) : TfResult α
deriving DecidableEq

/-- Dual number over the rationals: a value together with its derivative
with respect to one scalar parameter.  This models the gradient flow of
the numeric engine through one expression. -/
structure DualQ where
  val : ℚ
  grad : ℚ
deriving DecidableEq

/-- Addition of dual numbers. -/
def DualQ.add (a b : DualQ) : DualQ := ⟨a.val + b.val, a.grad + b.grad⟩

/-- Multiplication of dual numbers (product rule). -/
def DualQ.mul (a b : DualQ) : DualQ := ⟨a.val * b.val, a.val * b.grad + a.grad * b.val⟩

/-- Multiplication by a python-level constant (a graph constant carries no
gradient). -/
def DualQ.scale (c : ℚ) (a : DualQ) : DualQ := ⟨c * a.val, c * a.grad⟩

/-- Gradient-level tf.stop_gradient: keeps the value, zeroes the
derivative. -/
def DualQ.stopGrad (a : DualQ) : DualQ := ⟨a.val, 0⟩

/-- Value-level tf.stop_gradient: the identity on values. -/
def stopGradient (x : ℚ) : ℚ := x

/-- Elementwise Huber loss with delta = 1, the default of
tf.losses.huber_loss: with quadratic = min of the absolute error and 1,
the element loss is half the square of quadratic plus the linear
remainder. -/
def huberElem (label pred : ℚ) : ℚ :=
  (1 / 2) * min |pred - label| 1 * min |pred - label| 1
    + (|pred - label| - min |pred - label| 1)

/-- tf.losses.huber_loss with its default reduction: the mean of the
elementwise Huber losses (0 on an empty batch, where the rational division
by zero is 0). -/
def huberLoss (labels preds : List ℚ) : ℚ :=
  (List.zipWith huberElem labels preds).sum
    / ((List.zipWith huberElem labels preds).length : ℚ)

/-- tf.losses.mean_squared_error with its default reduction: the mean of
the squared errors. -/
def mseLoss (labels preds : List ℚ) : ℚ :=
  (List.zipWith (fun l p => (p - l) * (p - l)) labels preds).sum
    / ((List.zipWith (fun l p => (p - l) * (p - l)) labels preds).length : ℚ)

/-- tf.clip_by_value on one scalar: clamp x into the interval from lo to
hi. -/
def clipByValue (x lo hi : ℚ) : ℚ := min (max x lo) hi

/-- The dqda clipping step of DdpgAgent.actor_loss (lines 285-287): when a
clip bound is configured (is not None), clip element-wise between
-1 * dqda_clipping and dqda_clipping; otherwise leave dqda unmodified. -/
def clipDqda (clipping : Option ℚ) (dqda : List ℚ) : List ℚ :=
  match clipping with
  | some c => dqda.map (fun x => clipByValue x (-1 * c) c)
  | none => dqda

/-- Static configuration and architecture of a DdpgAgent.  The defaults
mirror DdpgAgent.__init__ (lines 49-67); td_errors_loss_fn = None means
tf.losses.huber_loss (line 115).  `actorNet params ts` is the actor
architecture applied to a parameter collection and a batch of time steps,
returning the flattened action nest (leaf-major); `criticNet` likewise
returns the batch of q values; `criticNetDqda` is the engine's
tf.gradients of the summed critic output with respect to each action
leaf. -/
structure Agent where
  actorNet : List ℚ → List TimeStep → List (List ℚ)
  criticNet : List ℚ → List TimeStep → List (List ℚ) → List ℚ
  criticNetDqda : List ℚ → List TimeStep → List (List ℚ) → List (List ℚ)
  targetUpdateTau : ℚ := 1
  targetUpdatePeriod : ℕ := 1
  dqdaClipping : Option ℚ := none
  tdErrorsLossFn : List ℚ → List ℚ → ℚ := huberLoss
  gamma : ℚ := 1
  rewardScaleFactor : ℚ := 1

/-- The four parameter collections owned by the agent: online and target
variables of the actor and of the critic. -/
structure AgentVars where
  actorVars : List ℚ
  targetActorVars : List ℚ
  criticVars : List ℚ
  targetCriticVars : List ℚ
deriving DecidableEq

/-- Mutable training state: the parameter collections plus the internal
call counter of the periodic target update. -/
structure AgentState where
  vars : AgentVars
  updateCounter : ℕ
deriving DecidableEq

/-- Opaque optimizer collaborators: an optimizer step maps the trainable
parameter collection and the loss it minimizes (standing for the loss
expression built from the pre-step state) to the updated collection.
Gradient computation and the optional global-norm gradient clipping live
inside this black box (spec sections 1 and 6). -/
structure Optimizers where
  criticApply : List ℚ → ℚ → List ℚ
  actorApply : List ℚ → ℚ → List ℚ

/-- tf_agent.LossInfo(total_loss, ()): the scalar total loss and the empty
per-sample detail (line 231). -/
structure LossInfo where
  loss : ℚ
  extra : Unit
deriving DecidableEq

/-- Modelled from the spec: common_utils.soft_variables_update is not
under src/.  Rule from the docstring of DdpgAgent._update_targets (lines
148-150) and spec section 4.1: for each source weight w_s and its
positionally corresponding target weight w_t, w_t becomes
(1 - tau) * w_t + tau * w_s. -/
def softVariablesUpdate (sourceVars targetVars : List ℚ) (tau : ℚ) : List ℚ :=
  List.zipWith (fun s t => (1 - tau) * t + tau * s) sourceVars targetVars

/-- Body of the periodic target update (lines 159-166): soft update of the
critic pair and of the actor pair, grouped. -/
def updateTargetsOnce (v : AgentVars) (tau : ℚ) : AgentVars :=
  { v with
    targetCriticVars := softVariablesUpdate v.criticVars v.targetCriticVars tau
    targetActorVars := softVariablesUpdate v.actorVars v.targetActorVars tau }

/-- Modelled from the spec: common_utils.periodically is not under src/.
Spec sections 4.1 and 8: an internal call counter gates execution; the
body runs exactly on calls whose call count is a multiple of the period,
and every other call is a no-op.  The function returns the new parameter
collections and the advanced counter. -/
def updateTargets (tau : ℚ) (period : ℕ) (v : AgentVars) (counter : ℕ) :
    AgentVars × ℕ :=
  if (counter + 1) % period = 0 then (updateTargetsOnce v tau, counter + 1)
  else (v, counter + 1)

/-- DdpgAgent._initialize (lines 142-143): the target update with tau = 1
and period = 1, run once on a fresh counter, so the hard copy always
executes. -/
def initTargetNetworks (v : AgentVars) : AgentVars :=
  (updateTargets 1 1 v 0).1

/-- A batch of recorded trajectory experience: tensors of temporal extent
T.  stepTypes, rewards and discounts are [B][T]; observations is
[B][T][obsDim]; actions is the flattened action nest, leaf-major
[C][B][T].  The inner lists are meant to have length temporalExtent. -/
structure Experience where
  temporalExtent : ℕ
  stepTypes : List (List ℤ)
  observations : List (List (List ℚ))
  actions : List (List (List ℚ))
  rewards : List (List ℚ)
  discounts : List (List ℚ)
deriving DecidableEq

/-- Batch size of an experience batch. -/
def Experience.batchSize (e : Experience) : ℕ := e.stepTypes.length

/-- The batch of time steps read at time index t, with the time axis
removed: output shape [B]. -/
def timeStepAt (e : Experience) (t : ℕ) : List TimeStep :=
  (List.range e.batchSize).map (fun i =>
    { stepType := (e.stepTypes.getD i []).getD t 0
      reward := (e.rewards.getD i []).getD t 0
      discount := (e.discounts.getD i []).getD t 0
      observation := (e.observations.getD i []).getD t [] })

/-- The recorded action leaves at time index t: each leaf [B][T] becomes
[B] by reading column t.  These are the actions stored by the collect
policy, not recomputed. -/
def actionsAt (e : Experience) (t : ℕ) : List (List ℚ) :=
  e.actions.map (fun leaf => leaf.map (fun row => row.getD t 0))

/-- The message of the InvalidInputError raised on a batch of the wrong
temporal extent. -/
def invalidLengthMsg : String :=
  "InvalidInputError: experience must span exactly 2 time steps"

/-- Modelled from the spec: trajectory.to_transition is not under src/.
DdpgAgent._experience_to_transitions (lines 171-179) splits the length-2
window into the current step and the next step, removes the singleton
time axis, and takes the recorded actions of the current step; by spec
sections 4.2 and 7 it fails with an InvalidInputError when the temporal
extent of the batch is not exactly 2. -/
def experienceToTransitions (e : Experience) :
    TfResult (List TimeStep × List (List ℚ) × List TimeStep) :=
  if e.temporalExtent = 2 then
    TfResult.ok (timeStepAt e 0, actionsAt e 0, timeStepAt e 1)
  else TfResult.invalidInputError invalidLengthMsg

/-- DdpgAgent.critic_loss (lines 233-266): bootstrap actions from the
target actor, bootstrap q values from the target critic, td targets under
stop_gradient, online q values, and the configured elementwise
regression loss between them. -/
def criticLoss (ag : Agent) (v : AgentVars) (timeSteps : List TimeStep)
    (actions : List (List ℚ)) (nextTimeSteps : List TimeStep) : ℚ :=
  let targetActions := ag.actorNet v.targetActorVars nextTimeSteps
  let targetQValues := ag.criticNet v.targetCriticVars nextTimeSteps targetActions
  let tdTargets := List.zipWith
    (fun nt q => stopGradient
      (ag.rewardScaleFactor * nt.reward + ag.gamma * nt.discount * q))
    nextTimeSteps targetQValues
  let qValues := ag.criticNet v.criticVars timeSteps actions
  ag.tdErrorsLossFn tdTargets qValues

/-- The critic-loss algorithm exactly as spec section 4.3 words it, with
the default Huber elementwise loss: target_action from the target actor,
target_q from the target critic, td_target by the bootstrap formula, q
from the online critic, and the aggregated Huber loss between td_target
and q. -/
def criticLossSpec (ag : Agent) (v : AgentVars) (timeSteps : List TimeStep)
    (actions : List (List ℚ)) (nextTimeSteps : List TimeStep) : ℚ :=
  let targetAction := ag.actorNet v.targetActorVars nextTimeSteps
  let targetQ := ag.criticNet v.targetCriticVars nextTimeSteps targetAction
  let tdTarget := List.zipWith
    (fun nt q => ag.rewardScaleFactor * nt.reward + ag.gamma * nt.discount * q)
    nextTimeSteps targetQ
  let q := ag.criticNet v.criticVars timeSteps actions
  huberLoss tdTarget q

/-- Dual-number reading of one element of the td_targets expression of
lines 251-253: reward_scale_factor * next_reward plus gamma *
next_discount * target_q, wrapped in tf.stop_gradient. -/
def tdTargetDual (rs gamma : ℚ) (reward discount targetQ : DualQ) : DualQ :=
  DualQ.stopGrad
    (DualQ.add (DualQ.scale rs reward)
      (DualQ.mul (DualQ.scale gamma discount) targetQ))

/-- DdpgAgent.actor_loss (lines 268-295): actions from the online actor, q
values from the online critic, the action gradient dqda from the engine,
the optional elementwise clipping, and per action leaf the mean squared
error between stop_gradient(dqda + action) and the action, summed over
the leaves. -/
def actorLoss (ag : Agent) (v : AgentVars) (timeSteps : List TimeStep) : ℚ :=
  let actions := ag.actorNet v.actorVars timeSteps
  let _qValues := ag.criticNet v.criticVars timeSteps actions
  let dqda := ag.criticNetDqda v.criticVars timeSteps actions
  ((dqda.zip actions).map (fun p =>
    mseLoss
      (List.zipWith (fun di ai => stopGradient (di + ai))
        (clipDqda ag.dqdaClipping p.1) p.2)
      p.2)).sum

/-- Dual-number reading of the actor regression target of line 290:
dqda + action wrapped in tf.stop_gradient. -/
def actorTargetDual (dqda action : DualQ) : DualQ :=
  DualQ.stopGrad (DualQ.add dqda action)

/-- DdpgAgent.critic_loss viewed as a call on the agent: the method only
reads the configuration and the parameter collections (lines 233-266
contain no assignment), so the embedding returns them with the loss. -/
def criticLossCall (ag : Agent) (v : AgentVars) (timeSteps : List TimeStep)
    (actions : List (List ℚ)) (nextTimeSteps : List TimeStep) :
    ℚ × Agent × AgentVars :=
  (criticLoss ag v timeSteps actions nextTimeSteps, ag, v)

/-- DdpgAgent.actor_loss viewed as a call on the agent: the method only
reads the configuration and the parameter collections (lines 268-295
contain no assignment). -/
def actorLossCall (ag : Agent) (v : AgentVars) (timeSteps : List TimeStep) :
    ℚ × Agent × AgentVars :=
  (actorLoss ag v timeSteps, ag, v)

/-- DdpgAgent._train (lines 181-231): extract transitions, compute the
critic loss and the actor loss from the current state, apply the critic
and the actor optimizer steps to the online collections, then, under a
control dependency on both steps, run the periodic target update, and
return LossInfo(actor_loss + critic_loss, ()). -/
def train (ag : Agent) (opt : Optimizers) (st : AgentState) (e : Experience) :
    TfResult (AgentState × LossInfo) :=
  match experienceToTransitions e with
  | TfResult.invalidInputError m => TfResult.invalidInputError m
  | TfResult.ok tans =>
    let timeSteps := tans.1
    let actions := tans.2.1
    let nextTimeSteps := tans.2.2
    let criticLossValue := criticLoss ag st.vars timeSteps actions nextTimeSteps
    let actorLossValue := actorLoss ag st.vars timeSteps
    let newCriticVars := opt.criticApply st.vars.criticVars criticLossValue
    let newActorVars := opt.actorApply st.vars.actorVars actorLossValue
    let steppedVars : AgentVars :=
      { st.vars with criticVars := newCriticVars, actorVars := newActorVars }
    let updated :=
      updateTargets ag.targetUpdateTau ag.targetUpdatePeriod steppedVars
        st.updateCounter
    TfResult.ok (⟨updated.1, updated.2⟩, ⟨actorLossValue + criticLossValue, ()⟩)

/-- Concrete experience batch for evaluation: batch size 1, temporal
extent 2, one scalar action leaf, rewards and discounts all 1. -/
def expW : Experience :=
  { temporalExtent := 2
    stepTypes := [[0, 1]]
    observations := [[[0], [0]]]
    actions := [[[0, 0]]]
    rewards := [[1, 1]]
    discounts := [[1, 1]] }

/-- The same batch with a wrong temporal extent. -/
def expBad : Experience := { expW with temporalExtent := 3 }

/-- Current time steps extracted from expW. -/
def tsW : List TimeStep := timeStepAt expW 0

/-- Recorded current actions extracted from expW. -/
def actsW : List (List ℚ) := actionsAt expW 0

/-- Next time steps extracted from expW. -/
def ntsW : List TimeStep := timeStepAt expW 1

/-- Concrete agent with constant synthetic networks as in spec section 8:
the critic always returns 5, gamma is 9/10, the action gradient oracle is
0, every other option keeps its default. -/
def agW : Agent :=
  { actorNet := fun _ _ => [[0]]
    criticNet := fun _ _ _ => [5]
    criticNetDqda := fun _ _ _ => [[0]]
    gamma := 9 / 10 }

/-- Concrete parameter collections: online actor [1], online critic [2],
both targets [0]. -/
def vW : AgentVars :=
  { actorVars := [1], targetActorVars := [0]
    criticVars := [2], targetCriticVars := [0] }

/-- Concrete training state over vW with a fresh counter. -/
def stW : AgentState := ⟨vW, 0⟩

/-- Identity optimizer collaborators: the step returns the parameters
unchanged, so the surrounding orchestration is observable. -/
def optW : Optimizers := ⟨fun p _ => p, fun p _ => p⟩

/-- The state produced by one train call on stW: online collections kept
by the identity optimizers, targets hard-copied (tau 1, period 1), the
counter advanced. -/
def stW1 : AgentState := ⟨⟨[1], [1], [2], [2]⟩, 1⟩

/-- The loss info of that call: the critic loss is the Huber mean of the
gap between td target 11/2 and online q 5, namely 1/8; the actor loss is
0. -/
def liW : LossInfo := ⟨1 / 8, ()⟩

/-- Concrete parameter collections with distinct entries for the target
update theorems. -/
def vW4 : AgentVars :=
  { actorVars := [1, 2], targetActorVars := [5, 6]
    criticVars := [3, 4], targetCriticVars := [7, 8] }

/-- Concrete time step for the clipping evaluation. -/
def tsClip : TimeStep := { stepType := 0, reward := 0, discount := 1, observation := [0] }

/-- Concrete agent whose engine reports dqda = 1 on an action of value 2,
configured with dqda_clipping = 0. -/
def agClip0 : Agent :=
  { actorNet := fun _ _ => [[2]]
    criticNet := fun _ _ _ => [0]
    criticNetDqda := fun _ _ _ => [[1]]
    dqdaClipping := some 0 }

/-- The same agent with no clip bound configured. -/
def agClipNone : Agent := { agClip0 with dqdaClipping := none }

/-- Empty parameter collections for the constant networks. -/
def vClip : AgentVars := ⟨[], [], [], []⟩

/-- Each elementwise Huber loss is non-negative. -/
theorem huberElem_nonneg (label pred : ℚ) : 0 ≤ huberElem label pred := by
  unfold huberElem
  have h1 : (0 : ℚ) ≤ min |pred - label| 1 := le_min (abs_nonneg _) (by norm_num)
  have h2 : min |pred - label| 1 ≤ |pred - label| := min_le_left _ _
  nlinarith [mul_nonneg h1 h1]

/-- The sum of elementwise Huber losses over any pair of batches is
non-negative. -/
theorem huber_sum_nonneg (labels : List ℚ) :
    ∀ preds : List ℚ, 0 ≤ (List.zipWith huberElem labels preds).sum := by
  induction labels with
  | nil => intro preds; simp
  | cons l ls ih =>
    intro preds
    cases preds with
    | nil => simp
    | cons p ps =>
      simp only [List.zipWith_cons_cons, List.sum_cons]
      exact add_nonneg (huberElem_nonneg _ _) (ih ps)

/-- The aggregated Huber loss is non-negative. -/
theorem huberLoss_nonneg (labels preds : List ℚ) : 0 ≤ huberLoss labels preds := by
  unfold huberLoss
  exact div_nonneg (huber_sum_nonneg _ _) (Nat.cast_nonneg _)

/-- With tau = 1 the soft update replaces each target weight with its
source weight. -/
theorem softUpdate_tau_one (ws : List ℚ) :
    ∀ wt : List ℚ, ws.length = wt.length → softVariablesUpdate ws wt 1 = ws := by
  induction ws with
  | nil => intro wt _; rfl
  | cons x xs ih =>
    intro wt h
    cases wt with
    | nil => simp at h
    | cons y ys =>
      have ht := ih ys (by simpa using h)
      simp only [softVariablesUpdate, List.zipWith_cons_cons] at ht ⊢
      rw [show (1 - (1 : ℚ)) * y + 1 * x = x by ring, ht]

/-- With tau = 0 the soft update keeps each target weight. -/
theorem softUpdate_tau_zero (ws : List ℚ) :
    ∀ wt : List ℚ, ws.length = wt.length → softVariablesUpdate ws wt 0 = wt := by
  induction ws with
  | nil =>
    intro wt h
    cases wt with
    | nil => rfl
    | cons y ys => simp at h
  | cons x xs ih =>
    intro wt h
    cases wt with
    | nil => simp at h
    | cons y ys =>
      have ht := ih ys (by simpa using h)
      simp only [softVariablesUpdate, List.zipWith_cons_cons] at ht ⊢
      rw [show (1 - (0 : ℚ)) * y + 0 * x = y by ring, ht]

/-- The periodic target update never touches the online critic
collection. -/
theorem updateTargets_fst_criticVars (tau : ℚ) (p : ℕ) (v : AgentVars) (c : ℕ) :
    (updateTargets tau p v c).1.criticVars = v.criticVars := by
  unfold updateTargets
  split <;> rfl

/-- The periodic target update never touches the online actor
collection. -/
theorem updateTargets_fst_actorVars (tau : ℚ) (p : ℕ) (v : AgentVars) (c : ℕ) :
    (updateTargets tau p v c).1.actorVars = v.actorVars := by
  unfold updateTargets
  split <;> rfl

/-- On a call whose call count is a multiple of the period, the periodic
update runs its body. -/
theorem updateTargets_fire (tau : ℚ) (p : ℕ) (v : AgentVars) (c : ℕ)
    (h : (c + 1) % p = 0) :
    (updateTargets tau p v c).1 = updateTargetsOnce v tau := by
  unfold updateTargets
  rw [if_pos h]

/-- On every other call, the periodic update returns the collections
unchanged. -/
theorem updateTargets_skip (tau : ℚ) (p : ℕ) (v : AgentVars) (c : ℕ)
    (h : ¬(c + 1) % p = 0) :
    (updateTargets tau p v c).1 = v := by
  unfold updateTargets
  rw [if_neg h]

/-- Squared errors of the shifted regression target collapse to the
squares of dqda. -/
theorem sq_shift_zip (d : List ℚ) :
    ∀ a : List ℚ,
      List.zipWith (fun l p => (p - l) * (p - l))
          (List.zipWith (fun di ai => stopGradient (di + ai)) d a) a
        = List.zipWith (fun di (_ : ℚ) => di * di) d a := by
  induction d with
  | nil => intro a; rfl
  | cons x xs ih =>
    intro a
    cases a with
    | nil => rfl
    | cons y ys =>
      simp only [List.zipWith_cons_cons]
      rw [show (y - stopGradient (x + y)) * (y - stopGradient (x + y)) = x * x by
            simp only [stopGradient]; ring,
          ih ys]

/-- The mean squared error against the stop-gradient-shifted target equals
the mean of the squared dqda entries. -/
theorem mse_stopGradient_shift (d a : List ℚ) :
    mseLoss (List.zipWith (fun di ai => stopGradient (di + ai)) d a) a
      = (List.zipWith (fun di (_ : ℚ) => di * di) d a).sum
          / ((List.zipWith (fun di (_ : ℚ) => di * di) d a).length : ℚ) := by
  unfold mseLoss
  rw [sq_shift_zip]

/-- When the absolute error is at most the Huber delta of 1, the
elementwise Huber loss is half the squared error. -/
theorem huberElem_of_small (l p : ℚ) (h : |p - l| ≤ 1) :
    huberElem l p = 1 / 2 * ((p - l) * (p - l)) := by
  unfold huberElem
  rw [min_eq_left h]
  nlinarith [abs_mul_abs_self (p - l)]

/-- Evaluation of the critic loss on the concrete constant networks: the
td target is 1 * 1 + 9/10 * 1 * 5 = 11/2 and the Huber mean against the
online q of 5 is 1/8. -/
theorem criticLoss_agW_eval : criticLoss agW vW tsW actsW ntsW = 1 / 8 := by
  show huberLoss [stopGradient (1 * 1 + 9 / 10 * 1 * 5)] [5] = 1 / 8
  rw [show stopGradient (1 * 1 + 9 / 10 * 1 * 5) = (11 / 2 : ℚ) by
        norm_num [stopGradient]]
  have h1 : huberLoss [(11 / 2 : ℚ)] [5] = huberElem (11 / 2) 5 := by
    norm_num [huberLoss]
  rw [h1, huberElem_of_small _ _ (by rw [abs_le]; constructor <;> norm_num)]
  norm_num

/-- Evaluation of the actor loss on the concrete constant networks: dqda
is 0, so the shifted regression target coincides with the action and the
loss is 0. -/
theorem actorLoss_agW_eval : actorLoss agW vW tsW = 0 := by
  show [mseLoss
      (List.zipWith (fun di ai => stopGradient (di + ai)) (clipDqda none [0]) [0])
      [0]].sum = 0
  norm_num [mseLoss, stopGradient, clipDqda]

/-- Evaluation of the clipping step at the configured bound 0: the clip
interval degenerates and dqda = 1 is forced to 0. -/
theorem clipDqda_zero_eval : clipDqda (some 0) [1] = [0] := by
  norm_num [clipDqda, clipByValue, min_def, max_def]

/-- Evaluation of the actor loss with dqda_clipping = 0: the clipped dqda
is 0, so the loss collapses to 0. -/
theorem actorLoss_agClip0_eval : actorLoss agClip0 vClip [tsClip] = 0 := by
  show [mseLoss
      (List.zipWith (fun di ai => stopGradient (di + ai)) (clipDqda (some 0) [1]) [2])
      [2]].sum = 0
  rw [clipDqda_zero_eval]
  norm_num [mseLoss, stopGradient]

/-- Evaluation of the actor loss with no clip bound: dqda = 1 passes
through and the loss is the mean of its square, 1. -/
theorem actorLoss_agClipNone_eval : actorLoss agClipNone vClip [tsClip] = 1 := by
  show [mseLoss
      (List.zipWith (fun di ai => stopGradient (di + ai)) (clipDqda none [1]) [2])
      [2]].sum = 1
  norm_num [mseLoss, stopGradient, clipDqda]

/-- One train call, given a successful transition extraction, equals the
orchestration pipeline applied to the extracted transitions. -/
theorem train_eq_of_extract (ag : Agent) (opt : Optimizers) (st : AgentState)
    (e : Experience) (ts : List TimeStep) (acts : List (List ℚ))
    (nts : List TimeStep)
    (hex : experienceToTransitions e = TfResult.ok (ts, acts, nts)) :
    train ag opt st e =
      TfResult.ok
        (⟨(updateTargets ag.targetUpdateTau ag.targetUpdatePeriod
              { st.vars with
                  criticVars := opt.criticApply st.vars.criticVars
                    (criticLoss ag st.vars ts acts nts)
                  actorVars := opt.actorApply st.vars.actorVars
                    (actorLoss ag st.vars ts) }
              st.updateCounter).1,
          (updateTargets ag.targetUpdateTau ag.targetUpdatePeriod
              { st.vars with
                  criticVars := opt.criticApply st.vars.criticVars
                    (criticLoss ag st.vars ts acts nts)
                  actorVars := opt.actorApply st.vars.actorVars
                    (actorLoss ag st.vars ts) }
              st.updateCounter).2⟩,
         ⟨actorLoss ag st.vars ts + criticLoss ag st.vars ts acts nts, ()⟩) := by
  unfold train
  rw [hex]

/-- Evaluation of the concrete train call: the identity optimizers keep
the online collections, the firing hard update copies them into the
targets, and the returned loss is 0 + 1/8. -/
theorem train_agW_eval : train agW optW stW expW = TfResult.ok (stW1, liW) := by
  have hv : stW.vars = vW := rfl
  have hcnt : stW.updateCounter = 0 := rfl
  have hext := train_eq_of_extract agW optW stW expW tsW actsW ntsW rfl
  rw [hv, hcnt, criticLoss_agW_eval, actorLoss_agW_eval] at hext
  rw [hext]
  norm_num [optW, vW, agW, stW1, liW, updateTargets, updateTargetsOnce,
    softVariablesUpdate]

/-- C1: critic_loss computes the bootstrap action with the target actor
and the bootstrap q value with the target critic, forms td_target =
reward_scale_factor * next_reward + gamma * next_discount * target_q
under stop_gradient (no gradient flows through the target), and returns
the configured elementwise regression loss, by default Huber and hence
non-negative, between td_target and the online critic's q values. -/
theorem ddpg_critic_loss_td_target (ag : Agent) (v : AgentVars)
    (timeSteps : List TimeStep) (actions : List (List ℚ))
    (nextTimeSteps : List TimeStep)
    (hdef : ag.tdErrorsLossFn = huberLoss) :
    criticLoss ag v timeSteps actions nextTimeSteps
        = criticLossSpec ag v timeSteps actions nextTimeSteps
    ∧ 0 ≤ criticLoss ag v timeSteps actions nextTimeSteps
    ∧ (∀ r d q : DualQ,
        (tdTargetDual ag.rewardScaleFactor ag.gamma r d q).grad = 0
        ∧ (tdTargetDual ag.rewardScaleFactor ag.gamma r d q).val
            = ag.rewardScaleFactor * r.val + ag.gamma * d.val * q.val) := by
  have h1 : criticLoss ag v timeSteps actions nextTimeSteps
      = criticLossSpec ag v timeSteps actions nextTimeSteps := by
    simp [criticLoss, criticLossSpec, stopGradient, hdef]
  refine ⟨h1, ?_, fun r d q => ⟨rfl, rfl⟩⟩
  rw [h1]
  exact huberLoss_nonneg _ _

/-- Witness for C1 at the synthetic constant networks of the spec:
target_q = 5, reward = 1, discount = 1, gamma = 9/10, reward_scale = 1
give td_target = 11/2, and against the constant online q = 5 the Huber
critic loss is 1/8. -/
theorem ddpg_critic_loss_td_target_witness :
    criticLoss agW vW tsW actsW ntsW = criticLossSpec agW vW tsW actsW ntsW
    ∧ 0 ≤ criticLoss agW vW tsW actsW ntsW
    ∧ criticLoss agW vW tsW actsW ntsW = 1 / 8 := by
  have h := ddpg_critic_loss_td_target agW vW tsW actsW ntsW rfl
  exact ⟨h.1, h.2.1, criticLoss_agW_eval⟩

/-- C2: actor_loss computes the actions with the online actor and their q
values with the online critic, takes the engine's gradient dqda of q with
respect to each action leaf, optionally clips it, and returns the sum
over the leaves of the mean squared error between
stop_gradient(dqda + action) and the action; by value this is the mean of
the squared (clipped) dqda entries per leaf, and no gradient flows
through the shifted target. -/
theorem ddpg_actor_loss_formula (ag : Agent) (v : AgentVars)
    (timeSteps : List TimeStep) :
    actorLoss ag v timeSteps
        = (((ag.criticNetDqda v.criticVars timeSteps
                (ag.actorNet v.actorVars timeSteps)).zip
              (ag.actorNet v.actorVars timeSteps)).map (fun p =>
            mseLoss
              (List.zipWith (fun di ai => stopGradient (di + ai))
                (clipDqda ag.dqdaClipping p.1) p.2)
              p.2)).sum
    ∧ (∀ d a : List ℚ,
        mseLoss (List.zipWith (fun di ai => stopGradient (di + ai)) d a) a
          = (List.zipWith (fun di (_ : ℚ) => di * di) d a).sum
              / ((List.zipWith (fun di (_ : ℚ) => di * di) d a).length : ℚ))
    ∧ (∀ d a : DualQ,
        (actorTargetDual d a).grad = 0
        ∧ (actorTargetDual d a).val = d.val + a.val) :=
  ⟨rfl, mse_stopGradient_shift, fun _ _ => ⟨rfl, rfl⟩⟩

/-- C3: the code clips whenever dqda_clipping is not None, so a configured
bound of 0 clips dqda into the degenerate interval from -0 to 0 and
forces it to 0, contradicting the docstring of lines 85-87 (clipping
should be disabled at 0): at dqda = 1 and action = 2, the bound 0 yields
an actor loss of 0 where the documented behaviour (an unmodified dqda of
1) yields 1. -/
theorem ddpg_dqda_zero_clipping_bug :
    clipDqda (some 0) [1] = [0]
    ∧ clipDqda none [1] = [1]
    ∧ actorLoss agClip0 vClip [tsClip] = 0
    ∧ actorLoss agClipNone vClip [tsClip] = 1 :=
  ⟨clipDqda_zero_eval, rfl, actorLoss_agClip0_eval, actorLoss_agClipNone_eval⟩

/-- C4: initialize performs the soft update with tau = 1 and period = 1,
so afterwards every target collection exactly equals its corresponding
online collection, whatever the targets held before, and the online
collections are untouched. -/
theorem ddpg_initialize_hard_copy (v : AgentVars)
    (hc : v.criticVars.length = v.targetCriticVars.length)
    (ha : v.actorVars.length = v.targetActorVars.length) :
    (initTargetNetworks v).targetCriticVars = v.criticVars
    ∧ (initTargetNetworks v).targetActorVars = v.actorVars
    ∧ (initTargetNetworks v).criticVars = v.criticVars
    ∧ (initTargetNetworks v).actorVars = v.actorVars := by
  have h : initTargetNetworks v = updateTargetsOnce v 1 := by
    simp [initTargetNetworks, updateTargets]
  rw [h]
  exact ⟨softUpdate_tau_one _ _ hc, softUpdate_tau_one _ _ ha, rfl, rfl⟩

/-- Witness for C4: initializing from distinct target values copies the
online values exactly. -/
theorem ddpg_initialize_hard_copy_witness :
    (initTargetNetworks vW4).targetCriticVars = vW4.criticVars
    ∧ (initTargetNetworks vW4).targetActorVars = vW4.actorVars := by
  have h := ddpg_initialize_hard_copy vW4 (by decide) (by decide)
  exact ⟨h.1, h.2.1⟩

/-- C5: transition extraction fails with an InvalidInputError whenever the
temporal extent of the experience batch is not exactly 2; on extent 2 it
returns the current time steps, the recorded current actions and the next
time steps, each of batch shape [B] with the singleton time axis
removed. -/
theorem ddpg_experience_to_transitions_shape (e : Experience)
    (hwf : ∀ leaf ∈ e.actions, leaf.length = e.batchSize) :
    (e.temporalExtent = 2 →
        experienceToTransitions e
            = TfResult.ok (timeStepAt e 0, actionsAt e 0, timeStepAt e 1)
        ∧ (timeStepAt e 0).length = e.batchSize
        ∧ (timeStepAt e 1).length = e.batchSize
        ∧ (∀ la ∈ actionsAt e 0, la.length = e.batchSize)
        ∧ actionsAt e 0
            = e.actions.map (fun leaf => leaf.map (fun row => row.getD 0 0)))
    ∧ (e.temporalExtent ≠ 2 →
        experienceToTransitions e = TfResult.invalidInputError invalidLengthMsg) := by
  constructor
  · intro h2
    refine ⟨?_, ?_, ?_, ?_, rfl⟩
    · simp [experienceToTransitions, h2]
    · simp [timeStepAt]
    · simp [timeStepAt]
    · intro la hla
      simp only [actionsAt] at hla
      obtain ⟨leaf, hleaf, rfl⟩ := List.mem_map.mp hla
      simpa using hwf leaf hleaf
  · intro h2
    simp [experienceToTransitions, h2]

/-- Witness for C5: the concrete extent-2 batch extracts to the expected
triple and the extent-3 batch raises the InvalidInputError. -/
theorem ddpg_experience_to_transitions_shape_witness :
    experienceToTransitions expW = TfResult.ok (tsW, actsW, ntsW)
    ∧ experienceToTransitions expBad = TfResult.invalidInputError invalidLengthMsg := by
  constructor
  · exact ((ddpg_experience_to_transitions_shape expW (by decide)).1 (by decide)).1
  · exact (ddpg_experience_to_transitions_shape expBad (by decide)).2 (by decide)

/-- C6: for a configured period p, the periodic soft update mutates the
target collections only on calls whose call count is a multiple of p; on
every other call it returns the collections unchanged (while still
advancing its counter), so any subsequent operation sees exactly the
prior state with no special-casing. -/
theorem ddpg_update_targets_period_gate (tau : ℚ) (p : ℕ) (v : AgentVars)
    (c : ℕ) (h : (c + 1) % p ≠ 0) :
    (updateTargets tau p v c).1 = v
    ∧ (updateTargets tau p v c).2 = c + 1
    ∧ ∀ g : AgentVars → AgentVars, g (updateTargets tau p v c).1 = g v := by
  have hres : updateTargets tau p v c = (v, c + 1) := by
    unfold updateTargets
    rw [if_neg h]
  rw [hres]
  exact ⟨rfl, rfl, fun g => rfl⟩

/-- Witness for C6: with period 3, the first call (call count 1) leaves
the concrete collections untouched. -/
theorem ddpg_update_targets_period_gate_witness :
    (updateTargets (1 / 2) 3 vW4 0).1 = vW4 :=
  (ddpg_update_targets_period_gate (1 / 2) 3 vW4 0 (by decide)).1

/-- C7: with tau = 0 the target update is a no-op: whatever the online
collections hold and whether or not the period fires, all four parameter
collections are returned unchanged. -/
theorem ddpg_update_targets_tau_zero_noop (p : ℕ) (v : AgentVars) (c : ℕ)
    (hc : v.criticVars.length = v.targetCriticVars.length)
    (ha : v.actorVars.length = v.targetActorVars.length) :
    (updateTargets 0 p v c).1 = v := by
  unfold updateTargets
  split
  · show (updateTargetsOnce v 0, c + 1).1 = v
    unfold updateTargetsOnce
    rw [softUpdate_tau_zero _ _ hc, softUpdate_tau_zero _ _ ha]
  · rfl

/-- Witness for C7: with period 1 the update fires, and with tau = 0 it
still leaves the concrete collections unchanged. -/
theorem ddpg_update_targets_tau_zero_noop_witness :
    (updateTargets 0 1 vW4 0).1 = vW4 :=
  ddpg_update_targets_tau_zero_noop 1 vW4 0 (by decide) (by decide)

/-- C8: every train call that completes returns a total loss equal to
actor_loss + critic_loss as computed within that call from the extracted
transitions, with the per-sample loss detail empty. -/
theorem ddpg_train_total_loss (ag : Agent) (opt : Optimizers) (st : AgentState)
    (e : Experience) (ts : List TimeStep) (acts : List (List ℚ))
    (nts : List TimeStep) (st1 : AgentState) (li : LossInfo)
    (hex : experienceToTransitions e = TfResult.ok (ts, acts, nts))
    (h : train ag opt st e = TfResult.ok (st1, li)) :
    li.loss = actorLoss ag st.vars ts + criticLoss ag st.vars ts acts nts
    ∧ li.extra = () := by
  rw [train_eq_of_extract ag opt st e ts acts nts hex] at h
  injection h with h1
  injection h1 with hst hli
  subst hli
  exact ⟨rfl, rfl⟩

/-- Witness for C8: the concrete train call completes with total loss
1/8 = 0 + 1/8. -/
theorem ddpg_train_total_loss_witness :
    liW.loss = actorLoss agW stW.vars tsW + criticLoss agW stW.vars tsW actsW ntsW
    ∧ liW.extra = () :=
  ddpg_train_total_loss agW optW stW expW tsW actsW ntsW stW1 liW
    rfl train_agW_eval

/-- C9: within one completing train call, both losses are computed from
the pre-update online collections, each optimizer step consumes exactly
the loss computed from that pre-update state, and the periodic target
update runs only after both gradient steps: when the period fires, the
new targets blend the post-step online collections with the old targets,
and otherwise the targets are unchanged. -/
theorem ddpg_train_ordering (ag : Agent) (opt : Optimizers) (st : AgentState)
    (e : Experience) (ts : List TimeStep) (acts : List (List ℚ))
    (nts : List TimeStep) (st1 : AgentState) (li : LossInfo)
    (hex : experienceToTransitions e = TfResult.ok (ts, acts, nts))
    (h : train ag opt st e = TfResult.ok (st1, li)) :
    li.loss = actorLoss ag st.vars ts + criticLoss ag st.vars ts acts nts
    ∧ st1.vars.criticVars
        = opt.criticApply st.vars.criticVars (criticLoss ag st.vars ts acts nts)
    ∧ st1.vars.actorVars
        = opt.actorApply st.vars.actorVars (actorLoss ag st.vars ts)
    ∧ ((st.updateCounter + 1) % ag.targetUpdatePeriod = 0 →
        st1.vars.targetCriticVars
            = softVariablesUpdate
                (opt.criticApply st.vars.criticVars
                  (criticLoss ag st.vars ts acts nts))
                st.vars.targetCriticVars ag.targetUpdateTau
        ∧ st1.vars.targetActorVars
            = softVariablesUpdate
                (opt.actorApply st.vars.actorVars (actorLoss ag st.vars ts))
                st.vars.targetActorVars ag.targetUpdateTau)
    ∧ ((st.updateCounter + 1) % ag.targetUpdatePeriod ≠ 0 →
        st1.vars.targetCriticVars = st.vars.targetCriticVars
        ∧ st1.vars.targetActorVars = st.vars.targetActorVars) := by
  rw [train_eq_of_extract ag opt st e ts acts nts hex] at h
  injection h with h1
  injection h1 with hst hli
  subst hst
  subst hli
  refine ⟨rfl, ?_, ?_, ?_, ?_⟩
  · rw [updateTargets_fst_criticVars]
  · rw [updateTargets_fst_actorVars]
  · intro hp
    rw [updateTargets_fire _ _ _ _ hp]
    exact ⟨rfl, rfl⟩
  · intro hp
    rw [updateTargets_skip _ _ _ _ hp]
    exact ⟨rfl, rfl⟩

/-- Witness for C9: in the concrete call the stepped online critic is
consumed by the firing target update, blending towards the pre-update
targets. -/
theorem ddpg_train_ordering_witness :
    stW1.vars.criticVars
        = optW.criticApply stW.vars.criticVars
            (criticLoss agW stW.vars tsW actsW ntsW)
    ∧ stW1.vars.targetCriticVars
        = softVariablesUpdate
            (optW.criticApply stW.vars.criticVars
              (criticLoss agW stW.vars tsW actsW ntsW))
            stW.vars.targetCriticVars agW.targetUpdateTau := by
  have h := ddpg_train_ordering agW optW stW expW tsW actsW ntsW stW1 liW
    rfl train_agW_eval
  exact ⟨h.2.1, (h.2.2.2.1 (by decide)).1⟩

/-- C10: critic_loss and actor_loss are read-only evaluations: they return
the agent configuration and all four parameter collections unchanged, and
within train every parameter change factors exactly through the two
optimizer steps followed by the periodic target update. -/
theorem ddpg_losses_read_only (ag : Agent) (v : AgentVars)
    (ts : List TimeStep) (acts : List (List ℚ)) (nts : List TimeStep) :
    (criticLossCall ag v ts acts nts).2 = (ag, v)
    ∧ (actorLossCall ag v ts).2 = (ag, v)
    ∧ ∀ (opt : Optimizers) (st : AgentState) (e : Experience)
        (st1 : AgentState) (li : LossInfo),
        experienceToTransitions e = TfResult.ok (ts, acts, nts) →
        train ag opt st e = TfResult.ok (st1, li) →
        st1.vars
          = (updateTargets ag.targetUpdateTau ag.targetUpdatePeriod
              { st.vars with
                  criticVars := opt.criticApply st.vars.criticVars
                    (criticLoss ag st.vars ts acts nts)
                  actorVars := opt.actorApply st.vars.actorVars
                    (actorLoss ag st.vars ts) }
              st.updateCounter).1 := by
  refine ⟨rfl, rfl, ?_⟩
  intro opt st e st1 li hex h
  rw [train_eq_of_extract ag opt st e ts acts nts hex] at h
  injection h with h1
  injection h1 with hst hli
  subst hst
  rfl

/-- Witness for C10: on the concrete call the loss evaluations return the
state unchanged and the final collections are exactly the optimizer steps
followed by the target update. -/
theorem ddpg_losses_read_only_witness :
    (criticLossCall agW vW tsW actsW ntsW).2 = (agW, vW)
    ∧ stW1.vars
        = (updateTargets agW.targetUpdateTau agW.targetUpdatePeriod
            { stW.vars with
                criticVars := optW.criticApply stW.vars.criticVars
                  (criticLoss agW stW.vars tsW actsW ntsW)
                actorVars := optW.actorApply stW.vars.actorVars
                  (actorLoss agW stW.vars tsW) }
            stW.updateCounter).1 := by
  have h := ddpg_losses_read_only agW vW tsW actsW ntsW
  exact ⟨h.1, h.2.2 optW stW expW stW1 liW rfl train_agW_eval⟩
